import Mathlib

/-!
Verification of the astrbot music plugin core against its specification.

Shallow embedding of the relevant parts of the source:
  - src/main.py          (command argument parsing, disambiguation waiter)
  - src/core/sender.py   (delivery-mode fallback engine and the per-mode senders)
  - src/core/downloader.py (image fetch protocol handling, extractor-mediated audio fetch)
  - src/core/platform/youtube.py (provider search)

Strings handled character-wise are modelled as List Char; external effects
(network, the yt-dlp extractor, the messaging runtime) are modelled as
explicit parameters describing their observable behaviour.
-/

/- ### Python string primitives used by main.py -/

/-- Python str.strip(): remove leading and trailing whitespace. -/
def pyStrip (s : List Char) : List Char :=
  ((s.dropWhile Char.isWhitespace).reverse.dropWhile Char.isWhitespace).reverse

/-- ASCII-range model of Python str.lower(), applied character-wise. -/
def asciiLower (c : Char) : Char :=
  if 'A' ≤ c ∧ c ≤ 'Z' then Char.ofNat (c.toNat + 32) else c

/-- Python str.isdigit() restricted to ASCII digits: nonempty and all digits. -/
def isDigitTok (s : List Char) : Bool :=
  !s.isEmpty && s.all Char.isDigit

/-- Python int() on a string of ASCII digits. -/
def tokToNat (s : List Char) : Nat :=
  s.foldl (fun a c => a * 10 + (c.toNat - 48)) 0

/-- Python substring membership test: pat in s (contiguous occurrence). -/
def occursIn (pat : List Char) : List Char → Bool
  | [] => pat.isEmpty
  | c :: cs => pat.isPrefixOf (c :: cs) || occursIn pat cs

/-- Python str.partition(space)[0]: the characters before the first space. -/
def leadingTok (msg : List Char) : List Char :=
  msg.takeWhile (fun c => c ≠ ' ')

/-- Python str.removesuffix(suf): drop suf from the end when it is a suffix. -/
def pyRemoveSuffix (s suf : List Char) : List Char :=
  if suf.isSuffixOf s then s.take (s.length - suf.length) else s

/-- Accumulator loop for Python str.split() with no separator. -/
def pySplitWsGo : List Char → List Char → List (List Char)
  | [], acc => if acc.isEmpty then [] else [acc.reverse]
  | c :: cs, acc =>
    if c.isWhitespace then
      if acc.isEmpty then pySplitWsGo cs [] else acc.reverse :: pySplitWsGo cs []
    else pySplitWsGo cs (c :: acc)

/-- Python str.split() with no separator: split on whitespace runs, no empty tokens. -/
def pySplitWs (s : List Char) : List (List Char) :=
  pySplitWsGo s []

/- ### Disambiguation waiter (src/main.py lines 119-137)

The session_waiter body receives a follow-up message.  It takes the leading
token (partition on space), strips and lowercases it, then:
  1. if any registered trigger keyword occurs inside that token, the session
     is stopped with no dispatch (the user issued a new command);
  2. otherwise, if the raw leading token is not all digits, the message is
     ignored and the wait continues;
  3. otherwise, if the integer is outside [1, len(songs)], the session is
     stopped with no dispatch;
  4. otherwise songs[int(tok) - 1] is dispatched to the sender
     (send_song) and the session is stopped. -/

inductive WaiterResult
  | cancelled
  | ignored
  | stoppedOutOfRange
  | dispatched (idx : Nat)
deriving DecidableEq

/-- Stripped-and-lowercased leading token of the follow-up message
(arg underscore variable in the source). -/
def normTok (msg : List Char) : List Char :=
  (pyStrip (leadingTok msg)).map asciiLower

/-- The keyword-cancel test: some registered trigger keyword occurs in the
normalised leading token (the for-kw loop in the source). -/
def kwHit (keywords : List (List Char)) (msg : List Char) : Bool :=
  keywords.any (fun kw => occursIn kw (normTok msg))

/-- The body of empty_mention_waiter from src/main.py, as a function of the
registered keywords, the result-list length n and the follow-up message.
dispatched idx means songs[idx] is passed to sender.send_song, 0-based. -/
def empty_mention_waiter (keywords : List (List Char)) (n : Nat) (msg : List Char) :
    WaiterResult :=
  if kwHit keywords msg = true then WaiterResult.cancelled
  else if isDigitTok (leadingTok msg) = false then WaiterResult.ignored
  else if tokToNat (leadingTok msg) < 1 ∨ tokToNat (leadingTok msg) > n then
    WaiterResult.stoppedOutOfRange
  else WaiterResult.dispatched (tokToNat (leadingTok msg) - 1)

/-- Whether the waiter outcome ends the session (controller.stop() is called
on every path except the plain return of the ignore branch). -/
def stopsSession : WaiterResult → Bool
  | WaiterResult.ignored => false
  | _ => true

/-- The index dispatched to the delivery engine, if any. -/
def dispatchedIndex : WaiterResult → Option Nat
  | WaiterResult.dispatched i => some i
  | _ => none

/-- The trigger keywords of the one provider whose source is present
(src/core/platform/youtube.py). -/
def ytKeywords : List (List Char) :=
  [String.toList "yt", String.toList "油管", String.toList "youtube"]

/- ### Play-command argument parsing (src/main.py lines 88-92) -/

/-- Lines 88-92 of src/main.py: split the argument, read a trailing numeric
index (default 0), and compute the searched keyword as
arg.removesuffix(str(index)).  none models the IndexError path where the
argument splits to no tokens. -/
def parse_song_request (arg : List Char) : Option (Nat × List Char) :=
  match (pySplitWs arg).getLast? with
  | none => none
  | some last =>
    let index := if isDigitTok last then tokToNat last else 0
    some (index, pyRemoveSuffix arg (Nat.repr index).toList)

/- ### Theorems for claims C4, C5, C9, C10 -/

/-- Claim C4: for every open disambiguation session over n songs, a follow-up
whose leading token is a positive integer k with 1 <= k <= n (and in which no
registered trigger keyword occurs, since the keyword-cancel test runs first)
dispatches exactly the k-th song of the presented list (songs[k-1], 1-based k)
to the delivery engine, and the session ends. -/
theorem c4_valid_selection_dispatches (kws : List (List Char)) (n : Nat)
    (msg : List Char) (k : Nat)
    (hkw : kwHit kws msg = false)
    (hdig : isDigitTok (leadingTok msg) = true)
    (hval : tokToNat (leadingTok msg) = k)
    (hlo : 1 ≤ k) (hhi : k ≤ n) :
    empty_mention_waiter kws n msg = WaiterResult.dispatched (k - 1) ∧
    stopsSession (empty_mention_waiter kws n msg) = true := by
  have hrange : ¬ (k < 1 ∨ k > n) := by omega
  unfold empty_mention_waiter
  rw [hkw, hdig]
  simp only [Bool.false_eq_true, Bool.true_eq_false, if_false, hval]
  rw [if_neg hrange]
  exact ⟨rfl, rfl⟩

/-- Witness for C4: with the registered youtube keywords, 3 results and the
follow-up message 2, the waiter dispatches songs[1] (the 2nd song) and stops. -/
theorem c4_valid_selection_dispatches_witness :
    empty_mention_waiter ytKeywords 3 (String.toList "2") = WaiterResult.dispatched 1 ∧
    stopsSession (empty_mention_waiter ytKeywords 3 (String.toList "2")) = true :=
  c4_valid_selection_dispatches ytKeywords 3 (String.toList "2") 2
    (by decide) (by decide) (by decide) (by decide) (by decide)

/-- Claim C5 as stated is false: a numeric leading token outside [1, n] is not
ignored — the source calls controller.stop() on that branch, ending the
session instead of keeping it waiting.  Concrete input: 2 songs, follow-up
message 5. -/
theorem c5_out_of_range_counterexample :
    empty_mention_waiter ytKeywords 2 (String.toList "5") = WaiterResult.stoppedOutOfRange ∧
    stopsSession (empty_mention_waiter ytKeywords 2 (String.toList "5")) = true := by
  decide

/-- Claim C5 amended: a follow-up that is neither a keyword hit nor a numeric
token is ignored and the session keeps waiting; a numeric leading token
outside [1, n] ends the session with no song dispatched (rather than keeping
the wait open). -/
theorem c5_non_selection_amended (kws : List (List Char)) (n : Nat) (msg : List Char)
    (hkw : kwHit kws msg = false) :
    (isDigitTok (leadingTok msg) = false →
      empty_mention_waiter kws n msg = WaiterResult.ignored ∧
      stopsSession (empty_mention_waiter kws n msg) = false) ∧
    (isDigitTok (leadingTok msg) = true →
      (tokToNat (leadingTok msg) < 1 ∨ tokToNat (leadingTok msg) > n) →
      empty_mention_waiter kws n msg = WaiterResult.stoppedOutOfRange ∧
      dispatchedIndex (empty_mention_waiter kws n msg) = none ∧
      stopsSession (empty_mention_waiter kws n msg) = true) := by
  constructor
  · intro hdig
    unfold empty_mention_waiter
    rw [hkw, hdig]
    exact ⟨rfl, rfl⟩
  · intro hdig hrange
    unfold empty_mention_waiter
    rw [hkw, hdig]
    simp only [Bool.false_eq_true, if_false, if_pos hrange]
    exact ⟨rfl, rfl, rfl⟩

/-- Witness for amended C5: a non-numeric, non-keyword follow-up is ignored
and the session keeps waiting. -/
theorem c5_non_selection_amended_witness :
    empty_mention_waiter ytKeywords 2 (String.toList "hello") = WaiterResult.ignored ∧
    stopsSession (empty_mention_waiter ytKeywords 2 (String.toList "hello")) = false :=
  (c5_non_selection_amended ytKeywords 2 (String.toList "hello") (by decide)).1 (by decide)

/-- Claim C9: the waiter cancels exactly when some registered trigger keyword
occurs in the stripped lowercased leading token (the kw-in-arg test of the
source), and in that case it ends the session with no song dispatched; a
follow-up with no keyword occurrence is never cancelled by this rule. -/
theorem c9_keyword_cancel_iff (kws : List (List Char)) (n : Nat) (msg : List Char) :
    (empty_mention_waiter kws n msg = WaiterResult.cancelled ↔ kwHit kws msg = true) ∧
    (kwHit kws msg = true →
      dispatchedIndex (empty_mention_waiter kws n msg) = none ∧
      stopsSession (empty_mention_waiter kws n msg) = true) := by
  constructor
  · constructor
    · intro h
      by_contra hk
      have hk' : kwHit kws msg = false := by
        cases hkw : kwHit kws msg
        · rfl
        · exact absurd hkw hk
      unfold empty_mention_waiter at h
      rw [hk'] at h
      simp only [Bool.false_eq_true, if_false] at h
      split at h
      · exact WaiterResult.noConfusion h
      · split at h
        · exact WaiterResult.noConfusion h
        · exact WaiterResult.noConfusion h
    · intro h
      unfold empty_mention_waiter
      rw [h]
      rfl
  · intro h
    unfold empty_mention_waiter
    rw [h]
    exact ⟨rfl, rfl⟩

/-- Witness for C9: the follow-up yt 周杰伦 starts with a registered trigger
keyword and cancels the session. -/
theorem c9_keyword_cancel_iff_witness :
    empty_mention_waiter ytKeywords 3 (String.toList "yt 周杰伦") = WaiterResult.cancelled :=
  ((c9_keyword_cancel_iff ytKeywords 3 (String.toList "yt 周杰伦")).1).mpr (by decide)

/-- Claim C10: in the play-song handler, when the last whitespace token of the
argument is not all digits, the index defaults to 0 and the searched keyword
is arg.removesuffix(str(0)), i.e. the argument with one trailing 0 character
removed whenever it ends in 0; the keyword equals the argument unchanged
exactly when the argument does not end in the character 0. -/
theorem c10_trailing_zero_stripped (arg last : List Char)
    (hlast : (pySplitWs arg).getLast? = some last)
    (hdig : isDigitTok last = false) :
    parse_song_request arg = some (0, pyRemoveSuffix arg ['0']) ∧
    (['0'].isSuffixOf arg = true → pyRemoveSuffix arg ['0'] = arg.dropLast) ∧
    (['0'].isSuffixOf arg = false → pyRemoveSuffix arg ['0'] = arg) := by
  refine ⟨?_, ?_, ?_⟩
  · unfold parse_song_request
    rw [hlast]
    simp only [hdig, Bool.false_eq_true, if_false]
    rfl
  · intro hsuf
    unfold pyRemoveSuffix
    rw [hsuf]
    simp [List.dropLast_eq_take]
  · intro hsuf
    unfold pyRemoveSuffix
    rw [hsuf]
    simp

/-- Witness for C10: the argument hello0 (a song name whose last character is
the digit 0, with no separate numeric index token) is searched as hello. -/
theorem c10_trailing_zero_stripped_witness :
    parse_song_request (String.toList "hello0") = some (0, String.toList "hello") := by
  have h := (c10_trailing_zero_stripped (String.toList "hello0") (String.toList "hello0")
    (by decide) (by decide)).1
  rw [h]
  decide

/- ### Downloader (src/core/downloader.py)

download_image (lines 52-60): the url is rewritten https -> http when
close_ssl is true, and close_ssl DEFAULTS to true in the signature.

download_youtube (lines 86-130): after the yt-dlp run (modelled by whether
the import succeeds, whether ydl.download raises, and whether the templated
output file uuid.mp3 exists afterwards), the path is returned only when the
file exists; every failure path returns None. -/

/-- Fuel-indexed left-to-right scan for Python str.replace(pat, rep): at each
position, a match of pat is replaced by rep and the scan resumes after it.
The fuel equals the remaining length, which one character per step consumes. -/
def pyReplaceFuel (pat rep : List Char) : Nat → List Char → List Char
  | 0, s => s
  | _ + 1, [] => []
  | fuel + 1, c :: cs =>
    if !pat.isEmpty && pat.isPrefixOf (c :: cs) then
      rep ++ pyReplaceFuel pat rep fuel (List.drop (pat.length - 1) cs)
    else c :: pyReplaceFuel pat rep fuel cs

/-- Python str.replace(pat, rep) for a nonempty pattern. -/
def pyReplace (pat rep s : List Char) : List Char :=
  pyReplaceFuel pat rep s.length s

/-- The url actually fetched by Downloader.download_image: the https -> http
rewrite is applied exactly when close_ssl is true. -/
def download_image_url (url : List Char) (close_ssl : Bool) : List Char :=
  if close_ssl then pyReplace (String.toList "https://") (String.toList "http://") url
  else url

/-- A call to download_image that does not pass close_ssl: the parameter
defaults to True in the source signature. -/
def download_image_url_default (url : List Char) : List Char :=
  download_image_url url true

/-- Observable behaviour of the external pieces of Downloader.download_youtube:
whether the yt-dlp import succeeds, whether ydl.download([url]) raises, and
whether the templated output file songs_dir/uuid.mp3 exists after the run. -/
structure YtDlWorld where
  ytdlp_available : Bool
  download_raises : Bool
  output_file_exists : Bool
deriving DecidableEq

/-- Downloader.download_youtube: missing yt-dlp returns None; an exception
from the extractor run returns None; otherwise the templated path uuid.mp3 is
returned exactly when that file exists on disk, else None. -/
def download_youtube (w : YtDlWorld) (uuidHex : String) : Option String :=
  if w.ytdlp_available = false then none
  else if w.download_raises = true then none
  else if w.output_file_exists = true then some (uuidHex ++ ".mp3") else none

/-- Claim C6: existence of the templated output file is the sole success
signal of the extractor-mediated fetch — a path is returned only when the
file exists, and a completed extractor run (no import failure, no exception)
whose expected file is absent still returns the failure outcome None. -/
theorem c6_output_file_sole_success_signal (w : YtDlWorld) (u : String) :
    (∀ p, download_youtube w u = some p → w.output_file_exists = true) ∧
    (w.ytdlp_available = true → w.download_raises = false →
      w.output_file_exists = false → download_youtube w u = none) := by
  obtain ⟨avail, raises, ex⟩ := w
  cases avail <;> cases raises <;> cases ex <;>
    simp [download_youtube]

/-- Witness for C6: yt-dlp present, extractor run completes without raising,
file absent — the fetch reports failure. -/
theorem c6_output_file_sole_success_signal_witness :
    download_youtube (YtDlWorld.mk true false false) "a1b2" = none :=
  (c6_output_file_sole_success_signal (YtDlWorld.mk true false false) "a1b2").2 rfl rfl rfl

/-- Claim C8 as stated is false: the https -> http downgrade is the default,
not opt-in.  A call to download_image that does not pass close_ssl fetches
the rewritten plaintext url, not the url unmodified. -/
theorem c8_default_downgrade_counterexample :
    download_image_url_default (String.toList "https://img.example.com/cover.jpg") ≠
      String.toList "https://img.example.com/cover.jpg" ∧
    download_image_url_default (String.toList "https://img.example.com/cover.jpg") =
      String.toList "http://img.example.com/cover.jpg" := by
  decide

/-- Claim C8 amended: the downgrade is the default (close_ssl defaults to
True) — a call that does not opt out fetches the url with every https://
replaced by http://, and only an explicit close_ssl=False call fetches the
url unmodified. -/
theorem c8_downgrade_default_amended (url : List Char) :
    download_image_url url false = url ∧
    download_image_url_default url =
      pyReplace (String.toList "https://") (String.toList "http://") url :=
  ⟨rfl, rfl⟩

/- ### Song data model (src/core/model.py is consumed via its fields) -/

/-- The Song value as used by the embedded components: identifier, display
strings, duration in ms, and the lazily resolved audio/cover urls (None until
a resolution step fills them in; Python treats None and the empty string the
same way in the truthiness tests of the source). -/
structure Song where
  id : String
  name : String
  artists : String
  duration : Nat
  audio_url : Option String
  cover_url : Option String
deriving DecidableEq

/-- Python truthiness of an optional string: None and the empty string are
falsy. -/
def pyFalsyStr : Option String → Bool
  | none => true
  | some s => s == ""

/- ### Youtube provider search (src/core/platform/youtube.py lines 24-93) -/

/-- One entry of the info dict returned by yt-dlp extract_info, with the same
optional fields the source reads. -/
structure YtEntry where
  vid : Option String
  title : Option String
  uploader : Option String
  url : Option String
  thumbnail : Option String
deriving DecidableEq

/-- The info dict: its entries list, in which individual entries may be None
(the source skips those). -/
structure YtInfo where
  entries : List (Option YtEntry)
deriving DecidableEq

/-- Observable behaviour of the external pieces of YoutubeMusic.fetch_songs:
whether the yt-dlp import succeeds and what the extract_info call run in the
executor produces — an exception, a falsy info, or an info dict.  The source
builds the query ytsearch{limit}:{keyword}, so a conforming extractor returns
at most limit entries; that contract is a hypothesis of the theorem. -/
structure YtSearchWorld where
  ytdlp_available : Bool
  extract_result : Except Unit (Option YtInfo)

/-- The Song built from one non-None entry (the loop body of the source):
missing fields fall back to the source defaults, and a missing or empty url
falls back to the watch?v= link. -/
def mkYtSong (e : YtEntry) : Song :=
  let videoId := e.vid.getD "None"
  let url := match e.url with
    | some u => if u == "" then "https://www.youtube.com/watch?v=" ++ videoId else u
    | none => "https://www.youtube.com/watch?v=" ++ videoId
  let cover := match e.thumbnail with
    | some t => if t == "" then "https://i.ytimg.com/vi/" ++ videoId ++ "/hqdefault.jpg" else t
    | none => "https://i.ytimg.com/vi/" ++ videoId ++ "/hqdefault.jpg"
  Song.mk videoId (e.title.getD "Unknown Title") (e.uploader.getD "Unknown Artist")
    0 (some url) (some cover)

/-- The for-entry loop of fetch_songs: None entries are skipped, every other
entry appends exactly one Song. -/
def songsOfEntries : List (Option YtEntry) → List Song
  | [] => []
  | none :: es => songsOfEntries es
  | some e :: es => mkYtSong e :: songsOfEntries es

/-- YoutubeMusic.fetch_songs: a missing yt-dlp dependency returns []; an
exception from extract_info is caught and returns []; a falsy info returns
[]; otherwise one Song per non-None entry.  keyword and extra do not affect
the control flow (extra is unused by the source body). -/
def fetch_songs (w : YtSearchWorld) (keyword : String) (limit : Nat)
    (extra : Option String) : List Song :=
  if w.ytdlp_available = false then []
  else match w.extract_result with
    | Except.error _ => []
    | Except.ok none => []
    | Except.ok (some info) => songsOfEntries info.entries

/-- The loop appends at most one song per entry. -/
theorem songsOfEntries_length_le (es : List (Option YtEntry)) :
    (songsOfEntries es).length ≤ es.length := by
  induction es with
  | nil => simp [songsOfEntries]
  | cons e es ih =>
    cases e with
    | none => simp [songsOfEntries]; omega
    | some e => simp [songsOfEntries]; omega

/-- Claim C3: for every keyword, limit and extra argument, the provider search
never raises to the caller — a missing dependency, an extract_info exception
or a falsy info all return the empty sequence — and whenever the extractor
honours the ytsearch{limit} query (returning at most limit entries) the
result has length at most limit. -/
theorem c3_search_bounded_and_total (w : YtSearchWorld) (keyword : String)
    (limit : Nat) (extra : Option String) :
    ((∀ info, w.extract_result = Except.ok (some info) → info.entries.length ≤ limit) →
      (fetch_songs w keyword limit extra).length ≤ limit) ∧
    (w.ytdlp_available = false → fetch_songs w keyword limit extra = []) ∧
    (∀ u, w.extract_result = Except.error u → fetch_songs w keyword limit extra = []) ∧
    (w.extract_result = Except.ok none → fetch_songs w keyword limit extra = []) := by
  obtain ⟨avail, res⟩ := w
  refine ⟨?_, ?_, ?_, ?_⟩
  · intro hbound
    cases avail with
    | false => simp [fetch_songs]
    | true =>
      cases res with
      | error u => simp [fetch_songs]
      | ok oinfo =>
        cases oinfo with
        | none => simp [fetch_songs]
        | some info =>
          have h1 := songsOfEntries_length_le info.entries
          have h2 := hbound info rfl
          simp only [fetch_songs, Bool.true_eq_false, if_false]
          omega
  · intro h
    have h' : avail = false := h
    subst h'
    simp [fetch_songs]
  · intro u h
    have h' : res = Except.error u := h
    subst h'
    cases avail <;> simp [fetch_songs]
  · intro h
    have h' : res = Except.ok none := h
    subst h'
    cases avail <;> simp [fetch_songs]

/-- A concrete extractor entry for the C3 witness. -/
def ytEntryW : YtEntry :=
  YtEntry.mk (some "dQw4") (some "Title") (some "Uploader") none none

/-- A concrete extractor behaviour for the C3 witness: yt-dlp importable,
extract_info returns two entries, one of them None. -/
def ytSearchWorldW : YtSearchWorld :=
  YtSearchWorld.mk true (Except.ok (some (YtInfo.mk [some ytEntryW, none])))

/-- Witness for C3: with an extractor honouring ytsearch2 (two entries), the
search result has at most 2 songs. -/
theorem c3_search_bounded_and_total_witness :
    (fetch_songs ytSearchWorldW "kw" 2 none).length ≤ 2 := by
  apply (c3_search_bounded_and_total ytSearchWorldW "kw" 2 none).1
  intro info hinfo
  have h : Except.ok (some (YtInfo.mk [some ytEntryW, none])) =
      (Except.ok (some info) : Except Unit (Option YtInfo)) := hinfo
  injection h with h1
  injection h1 with h2
  rw [← h2]
  decide

/- ### Delivery engine (src/core/sender.py)

The per-mode senders (send_card, send_record, send_file, send_text) are
embedded as functions of a World describing the behaviour of the messaging
runtime, the provider enrichment call and the downloader.  Each returns the
outcome the fallback loop observes — ok (returned True), failed (returned
False), or raised (an exception escaped the sender and is caught by the
loop) — together with the messages the user sees during the attempt. -/

/-- The kind of destination channel event, as distinguished by the isinstance
checks of _is_mode_supported. -/
inductive EventKind
  | aiocqhttp
  | telegram
  | discordView
  | other
deriving DecidableEq

/-- The concrete provider class, as distinguished by the isinstance check of
the card branch of _is_mode_supported. -/
inductive PlayerKind
  | netease
  | neteaseNodeJS
  | txqq
  | youtube
deriving DecidableEq

/-- MusicSender._is_mode_supported (lines 217-245): card needs an aiocqhttp
event and a NetEase provider; record needs aiocqhttp or telegram; file needs
aiocqhttp, telegram or discord; text is always supported; anything else is
not. -/
def is_mode_supported (mode : String) (e : EventKind) (p : PlayerKind) : Bool :=
  if mode = "card" then
    decide (e = EventKind.aiocqhttp) &&
      (decide (p = PlayerKind.netease) || decide (p = PlayerKind.neteaseNodeJS))
  else if mode = "record" then
    decide (e = EventKind.aiocqhttp) || decide (e = EventKind.telegram)
  else if mode = "file" then
    decide (e = EventKind.aiocqhttp) || decide (e = EventKind.telegram) ||
      decide (e = EventKind.discordView)
  else if mode = "text" then true
  else false

/-- The tag of the per-mode send coroutine. -/
inductive SenderTag
  | card
  | record
  | file
  | text
deriving DecidableEq

/-- MusicSender._get_sender (lines 209-215): the dict lookup from the mode
string to the send coroutine; unknown modes give None. -/
def get_sender (mode : String) : Option SenderTag :=
  if mode = "card" then some SenderTag.card
  else if mode = "record" then some SenderTag.record
  else if mode = "file" then some SenderTag.file
  else if mode = "text" then some SenderTag.text
  else none

/-- Outcome of one per-mode attempt as the loop observes it. -/
inductive SendResult
  | ok
  | failed
  | raised
deriving DecidableEq

/-- A user-visible emission during send_song, tagged by which source line
produces it. -/
inductive Msg
  | audioFetchFail (name : String)
  | downloadFail (name : String)
  | fileSendFail (name : String)
  | cardError (text : String)
  | deliveredCard (id : String)
  | deliveredRecord (url : String)
  | deliveredFile (filename : String)
  | deliveredText (text : String)
  | overallFail
  | comment (text : String)
  | lyricsImage
deriving DecidableEq

/-- Behaviour of everything outside sender.py that the per-mode senders call:
the provider enrichment (player.fetch_extra, which may raise), the downloader
(download_song returns a path or None, all internal errors caught), whether
each transport send raises, the provider to_lines rendering, and the
best-effort secondary content. -/
structure World where
  fetch_extra : Song → Except Unit Song
  record_send_raises : Bool
  download_song : String → Option String
  file_send_raises : Bool
  card_send_raises : Bool
  card_error_text : String
  text_send_raises : Bool
  to_lines : Song → String
  comment_content : Option String
  lyrics_sent : Bool

/-- re.sub of the illegal filename characters to an underscore
(send_file line 166). -/
def sanitize_filename (s : String) : String :=
  String.mk (s.toList.map (fun c =>
    if [Char.ofNat 92, '/', ':', '*', '?', Char.ofNat 34, '<', '>', '|'].contains c
    then '_' else c))

/-- MusicSender.send_record (lines 130-146): resolve the audio url via
fetch_extra when absent (an exception there escapes the sender); if still
absent, tell the user the audio fetch failed and return False; otherwise try
the transport send, an exception being caught to a silent False. -/
def send_record (w : World) (song : Song) : SendResult × List Msg :=
  match (if pyFalsyStr song.audio_url then w.fetch_extra song else Except.ok song) with
  | Except.error _ => (SendResult.raised, [])
  | Except.ok s =>
    if pyFalsyStr s.audio_url then (SendResult.failed, [Msg.audioFetchFail s.name])
    else if w.record_send_raises then (SendResult.failed, [])
    else (SendResult.ok, [Msg.deliveredRecord (s.audio_url.getD "")])

/-- MusicSender.send_file (lines 148-193): resolve the audio url (exception
escapes); if absent, audio-fetch failure message and False; download the
file, a None path giving a download-failure message and False; then try the
transport send, an exception being caught to a send-failure message and
False.  Downloaded paths always end in .mp3 (both downloader branches name
the file uuid.mp3). -/
def send_file (w : World) (song : Song) : SendResult × List Msg :=
  match (if pyFalsyStr song.audio_url then w.fetch_extra song else Except.ok song) with
  | Except.error _ => (SendResult.raised, [])
  | Except.ok s =>
    if pyFalsyStr s.audio_url then (SendResult.failed, [Msg.audioFetchFail s.name])
    else match w.download_song (s.audio_url.getD "") with
      | none => (SendResult.failed, [Msg.downloadFail s.name])
      | some _ =>
        if w.file_send_raises then (SendResult.failed, [Msg.fileSendFail s.name])
        else (SendResult.ok,
          [Msg.deliveredFile (sanitize_filename (s.name ++ " - " ++ s.artists ++ ".mp3"))])

/-- MusicSender.send_card (lines 107-128): try the api call; on an exception
the error text is echoed to the user and False is returned. -/
def send_card (w : World) (song : Song) : SendResult × List Msg :=
  if w.card_send_raises then (SendResult.failed, [Msg.cardError w.card_error_text])
  else (SendResult.ok, [Msg.deliveredCard song.id])

/-- MusicSender.send_text (lines 195-207): everything, including the
fetch_extra enrichment, sits inside the try, so any exception is caught to a
silent False; on success the rendered song info is the delivered content. -/
def send_text (w : World) (song : Song) : SendResult × List Msg :=
  match w.fetch_extra song with
  | Except.error _ => (SendResult.failed, [])
  | Except.ok s =>
    if w.text_send_raises then (SendResult.failed, [])
    else (SendResult.ok, [Msg.deliveredText (w.to_lines s)])

/-- Dispatch through the _get_sender table: the attempt the loop runs for a
mode string (only called for modes whose get_sender is some). -/
def run_mode (w : World) (song : Song) (m : String) : SendResult × List Msg :=
  if m = "card" then send_card w song
  else if m = "record" then send_record w song
  else if m = "file" then send_file w song
  else if m = "text" then send_text w song
  else (SendResult.failed, [])

/-- The observable result of the fallback loop of send_song: which modes had
their send coroutine invoked (in order), which mode succeeded (None when the
list is exhausted), and the user-visible messages the attempts emitted. -/
structure Trace where
  attempted : List String
  succeeded : Option String
  msgs : List Msg
deriving DecidableEq

/-- The for-mode loop of MusicSender.send_song (lines 255-275): skip a mode
whose capability predicate is false, skip a mode with no sender, run the
sender with its exception caught to a failure, break on the first True. -/
def send_loop (e : EventKind) (p : PlayerKind)
    (attempt : String → SendResult × List Msg) : List String → Trace
  | [] => Trace.mk [] none []
  | m :: ms =>
    if is_mode_supported m e p = false then send_loop e p attempt ms
    else if (get_sender m).isNone then send_loop e p attempt ms
    else
      let r := attempt m
      if r.1 = SendResult.ok then Trace.mk [m] (some m) r.2
      else
        let t := send_loop e p attempt ms
        Trace.mk (m :: t.attempted) t.succeeded (r.2 ++ t.msgs)

/-- The best-effort comment attachment (send_comment, lines 75-89): at most
one comment text, all failures absorbed silently. -/
def commentEmission (w : World) : List Msg :=
  match w.comment_content with
  | some c => [Msg.comment c]
  | none => []

/-- The best-effort lyrics attachment (send_lyrics, lines 91-106): at most
one rendered lyrics image, all failures absorbed silently. -/
def lyricsEmission (w : World) : List Msg :=
  if w.lyrics_sent then [Msg.lyricsImage] else []

/-- MusicSender.send_song (lines 247-286) end to end: run the fallback loop
over the configured mode list, send the single overall failure notice when no
mode succeeded, then run the flag-gated best-effort post steps only on
success. -/
def send_song_full (w : World) (e : EventKind) (p : PlayerKind) (song : Song)
    (modes : List String) (enable_comments enable_lyrics : Bool) : Trace × List Msg :=
  let t := send_loop e p (run_mode w song) modes
  (t, t.msgs ++ (if t.succeeded.isNone then [Msg.overallFail] else []) ++
    (if t.succeeded.isSome && enable_comments then commentEmission w else []) ++
    (if t.succeeded.isSome && enable_lyrics then lyricsEmission w else []))

/-- A mode is eligible for an attempt when its capability predicate holds and
the sender table has an entry for it. -/
def eligFun (e : EventKind) (p : PlayerKind) (m : String) : Bool :=
  is_mode_supported m e p && (get_sender m).isSome

/-- The prefix of a mode list the loop runs: everything up to and including
the first mode whose attempt returns ok. -/
def takeToFirstOk (attempt : String → SendResult × List Msg) : List String → List String
  | [] => []
  | m :: ms =>
    if (attempt m).1 = SendResult.ok then [m] else m :: takeToFirstOk attempt ms

/-- One unfolding step of the loop, with the two skip conditions merged into
eligibility. -/
theorem send_loop_cons (e : EventKind) (p : PlayerKind)
    (attempt : String → SendResult × List Msg) (m : String) (ms : List String) :
    send_loop e p attempt (m :: ms) =
      if eligFun e p m = false then send_loop e p attempt ms
      else if (attempt m).1 = SendResult.ok then Trace.mk [m] (some m) (attempt m).2
      else Trace.mk (m :: (send_loop e p attempt ms).attempted)
        (send_loop e p attempt ms).succeeded
        ((attempt m).2 ++ (send_loop e p attempt ms).msgs) := by
  cases hsup : is_mode_supported m e p with
  | false =>
    have helig : eligFun e p m = false := by simp [eligFun, hsup]
    simp [send_loop, hsup, helig]
  | true =>
    cases hgs : get_sender m with
    | none =>
      have helig : eligFun e p m = false := by simp [eligFun, hgs]
      simp [send_loop, hsup, hgs, helig]
    | some tag =>
      have helig : eligFun e p m = true := by simp [eligFun, hsup, hgs]
      by_cases hok : (attempt m).1 = SendResult.ok
      · simp [send_loop, hsup, hgs, helig, hok]
      · simp [send_loop, hsup, hgs, helig, hok]

/-- The loop attempts exactly the eligible prefix up to the first success,
and reports as succeeded exactly the first eligible mode whose attempt
returns ok. -/
theorem send_loop_spec (e : EventKind) (p : PlayerKind)
    (attempt : String → SendResult × List Msg) (modes : List String) :
    (send_loop e p attempt modes).attempted
      = takeToFirstOk attempt (modes.filter (eligFun e p)) ∧
    (send_loop e p attempt modes).succeeded
      = (modes.filter (eligFun e p)).find?
          (fun m => decide ((attempt m).1 = SendResult.ok)) := by
  induction modes with
  | nil => exact ⟨rfl, rfl⟩
  | cons m ms ih =>
    rw [send_loop_cons]
    cases helig : eligFun e p m with
    | false =>
      simp only [List.filter_cons, helig, Bool.false_eq_true, if_false]
      exact ih
    | true =>
      simp only [List.filter_cons, helig, if_true, Bool.true_eq_false, if_false]
      by_cases hok : (attempt m).1 = SendResult.ok
      · simp [takeToFirstOk, List.find?, hok]
      · simp only [if_neg hok, takeToFirstOk, List.find?]
        have hok' : decide ((attempt m).1 = SendResult.ok) = false := by
          simp [hok]
        rw [hok']
        simp only [if_neg hok]
        exact ⟨by rw [ih.1], by rw [ih.2]⟩

/-- Everything the loop attempts comes from the mode list. -/
theorem mem_takeToFirstOk (attempt : String → SendResult × List Msg)
    (x : String) : ∀ l, x ∈ takeToFirstOk attempt l → x ∈ l := by
  intro l
  induction l with
  | nil => simp [takeToFirstOk]
  | cons m ms ih =>
    unfold takeToFirstOk
    split
    · intro h
      simp at h
      simp [h]
    · intro h
      rcases List.mem_cons.mp h with h' | h'
      · simp [h']
      · exact List.mem_cons.mpr (Or.inr (ih h'))

/-- No per-mode sender ever emits the engine-level overall failure notice. -/
theorem overallFail_not_in_run_mode (w : World) (song : Song) (m : String) :
    Msg.overallFail ∉ (run_mode w song m).2 := by
  unfold run_mode
  split_ifs
  · unfold send_card
    split <;> simp
  · unfold send_record
    split
    · simp
    · split
      · simp
      · split <;> simp
  · unfold send_file
    split
    · simp
    · split
      · simp
      · split
        · simp
        · split <;> simp
  · unfold send_text
    split
    · simp
    · split <;> simp
  · simp

/-- The messages of the fallback loop never include the overall failure
notice. -/
theorem count_overallFail_loop (w : World) (song : Song) (e : EventKind)
    (p : PlayerKind) (modes : List String) :
    ((send_loop e p (run_mode w song) modes).msgs).count Msg.overallFail = 0 := by
  induction modes with
  | nil => rfl
  | cons m ms ih =>
    rw [send_loop_cons]
    cases helig : eligFun e p m with
    | false => simpa using ih
    | true =>
      by_cases hok : (run_mode w song m).1 = SendResult.ok
      · simp only [Bool.true_eq_false, if_false, if_pos hok]
        exact List.count_eq_zero.mpr (overallFail_not_in_run_mode w song m)
      · simp only [Bool.true_eq_false, if_false, if_neg hok, List.count_append]
        rw [List.count_eq_zero.mpr (overallFail_not_in_run_mode w song m), ih]

/-- The overall failure notice appears exactly once when the loop exhausts
the mode list, and never on success. -/
theorem count_overallFail_send_song (w : World) (e : EventKind) (p : PlayerKind)
    (song : Song) (modes : List String) (ec el : Bool) :
    ((send_song_full w e p song modes ec el).2).count Msg.overallFail =
      (if (send_loop e p (run_mode w song) modes).succeeded = none then 1 else 0) := by
  have hc : (commentEmission w).count Msg.overallFail = 0 := by
    unfold commentEmission
    cases w.comment_content <;> simp
  have hl : (lyricsEmission w).count Msg.overallFail = 0 := by
    unfold lyricsEmission
    split_ifs <;> simp
  unfold send_song_full
  simp only [List.count_append]
  rw [count_overallFail_loop]
  cases hs : (send_loop e p (run_mode w song) modes).succeeded with
  | none => simp [hs]
  | some m =>
    simp only [hs, Option.isNone_some, Bool.false_eq_true, if_false,
      List.count_nil, Option.isSome_some, Bool.true_and]
    split_ifs <;> simp_all

/-- Claim C1: for every configured mode list, channel event, provider and
per-mode send behaviour, the fallback loop tries the eligible modes strictly
in configured order and attempts exactly the prefix up to the first mode
whose send reports success (no later mode is attempted); it reports overall
success with exactly the first eligible mode whose attempt returns ok, and
none when every attempt fails; a raised exception inside one mode's send is
caught as that mode's failure and the loop continues with the rest of the
list; and when no mode succeeded the engine emits the single user-facing
failure notice exactly once. -/
theorem c1_fallback_engine (e : EventKind) (p : PlayerKind)
    (attempt : String → SendResult × List Msg) (modes : List String) :
    (send_loop e p attempt modes).attempted
      = takeToFirstOk attempt (modes.filter (eligFun e p)) ∧
    (send_loop e p attempt modes).succeeded
      = (modes.filter (eligFun e p)).find?
          (fun m => decide ((attempt m).1 = SendResult.ok)) ∧
    (∀ m ms, is_mode_supported m e p = true → (get_sender m).isSome = true →
      (attempt m).1 = SendResult.raised →
      (send_loop e p attempt (m :: ms)).succeeded
          = (send_loop e p attempt ms).succeeded ∧
      (send_loop e p attempt (m :: ms)).attempted
          = m :: (send_loop e p attempt ms).attempted) ∧
    (∀ (w : World) (song : Song) (ec el : Bool),
      (send_loop e p (run_mode w song) modes).succeeded = none →
      ((send_song_full w e p song modes ec el).2).count Msg.overallFail = 1) := by
  refine ⟨(send_loop_spec e p attempt modes).1, (send_loop_spec e p attempt modes).2,
    ?_, ?_⟩
  · intro m ms hsup hgs hraise
    have helig : eligFun e p m = true := by simp [eligFun, hsup, hgs]
    have hok : ¬ (attempt m).1 = SendResult.ok := by
      rw [hraise]
      exact SendResult.noConfusion
    rw [send_loop_cons]
    simp [helig, hok]
  · intro w song ec el hnone
    rw [count_overallFail_send_song]
    simp [hnone]

/-- Witness for C1: a raised attempt on the universally supported text mode
is treated as a failure and the loop moves on to the rest of the list. -/
theorem c1_fallback_engine_witness :
    (send_loop EventKind.other PlayerKind.youtube
        (fun _ => (SendResult.raised, [])) ["text"]).succeeded
      = (send_loop EventKind.other PlayerKind.youtube
        (fun _ => (SendResult.raised, [])) []).succeeded ∧
    (send_loop EventKind.other PlayerKind.youtube
        (fun _ => (SendResult.raised, [])) ["text"]).attempted
      = "text" :: (send_loop EventKind.other PlayerKind.youtube
        (fun _ => (SendResult.raised, [])) []).attempted :=
  (c1_fallback_engine EventKind.other PlayerKind.youtube
    (fun _ => (SendResult.raised, [])) []).2.2.1 "text" []
    (by decide) (by decide) (by decide)

/-- Claim C7: a mode whose capability predicate is false for the given
(channel, provider) never has its send coroutine invoked, whatever the mode
list and the behaviour of the senders; and the text-mode capability predicate
is true for every channel and provider (the universal fallback). -/
theorem c7_capability_gate :
    (∀ (m : String) (e : EventKind) (p : PlayerKind)
      (attempt : String → SendResult × List Msg) (modes : List String),
      is_mode_supported m e p = false →
      m ∉ (send_loop e p attempt modes).attempted) ∧
    (∀ (e : EventKind) (p : PlayerKind), is_mode_supported "text" e p = true) := by
  constructor
  · intro m e p attempt modes hunsup hmem
    rw [(send_loop_spec e p attempt modes).1] at hmem
    have hfil := mem_takeToFirstOk attempt m _ hmem
    have helig : eligFun e p m = true := (List.mem_filter.mp hfil).2
    unfold eligFun at helig
    rw [hunsup] at helig
    simp at helig
  · intro e p
    rfl

/-- Witness for C7: with a telegram channel and the youtube provider the card
mode is unsupported and is never attempted, while text stays supported. -/
theorem c7_capability_gate_witness :
    "card" ∉ (send_loop EventKind.telegram PlayerKind.youtube
      (fun _ => (SendResult.failed, [])) ["card", "text"]).attempted ∧
    is_mode_supported "text" EventKind.other PlayerKind.txqq = true :=
  ⟨c7_capability_gate.1 "card" EventKind.telegram PlayerKind.youtube
    (fun _ => (SendResult.failed, [])) ["card", "text"] (by decide),
   c7_capability_gate.2 EventKind.other PlayerKind.txqq⟩

/-- A song whose audio url is unresolved, for the C2 counterexample. -/
def songW : Song := Song.mk "id1" "Song" "Artist" 0 none none

/-- A world in which enrichment succeeds but yields no audio url, downloads
fail, and the transports never raise, for the C2 counterexample. -/
def worldW : World :=
  World.mk (fun s => Except.ok s) false (fun _ => none) false false "" false
    (fun s => s.name) none false

/-- Claim C2 as stated is false: a failed mode does produce a user-visible
message of its own.  With modes [record, text] on an aiocqhttp channel and a
song whose audio url cannot be resolved, the record attempt itself sends the
audio-fetch failure message to the user, and the request then succeeds via
text — so the user sees a failure message even though delivery succeeded,
and it came from a single failed mode. -/
theorem c2_per_mode_message_counterexample :
    (send_song_full worldW EventKind.aiocqhttp PlayerKind.youtube songW
      ["record", "text"] false false).1.succeeded = some "text" ∧
    Msg.audioFetchFail "Song" ∈ (send_song_full worldW EventKind.aiocqhttp
      PlayerKind.youtube songW ["record", "text"] false false).2 := by
  decide

/-- Claim C2 amended: the engine-level failure notice is sent exactly once
when every mode fails and never on success, but a failed mode may emit its
own user-visible message: in particular a record attempt whose audio url
cannot be resolved sends the audio-fetch failure message itself (and
likewise the file mode for download and send failures, and the card mode
echoes its error text). -/
theorem c2_failure_messages_amended (w : World) (e : EventKind) (p : PlayerKind)
    (song : Song) (modes : List String) (ec el : Bool) :
    ((send_song_full w e p song modes ec el).2).count Msg.overallFail =
      (if (send_song_full w e p song modes ec el).1.succeeded = none then 1 else 0) ∧
    (∀ s, pyFalsyStr song.audio_url = true → w.fetch_extra song = Except.ok s →
      pyFalsyStr s.audio_url = true →
      send_record w song = (SendResult.failed, [Msg.audioFetchFail s.name])) := by
  constructor
  · exact count_overallFail_send_song w e p song modes ec el
  · intro s h1 h2 h3
    unfold send_record
    rw [h1]
    simp only [if_true]
    rw [h2]
    simp only [h3, if_true]

/-- Witness for amended C2: the concrete world of the counterexample makes
the record mode fail with its own audio-fetch failure message. -/
theorem c2_failure_messages_amended_witness :
    send_record worldW songW = (SendResult.failed, [Msg.audioFetchFail "Song"]) :=
  (c2_failure_messages_amended worldW EventKind.aiocqhttp PlayerKind.youtube songW
    [] false false).2 songW rfl rfl rfl
